import Mathlib

/-!
Verification of the `shop-agent` repository against its natural-language
specification.

The development shallowly embeds the two decision components of the
repository:

* `src/shop_agent/policy.py` — the `PolicyEngine` with its `evaluate`
  method (category policies, tiered discounts, discount caps);
* `src/shop_agent/orchestrator.py` — the `DialogManager` per-turn state
  machine (`handle_turn` and its helpers), whose session record is the
  `Case` row of `src/shop_agent/db.py`.

Python `Optional` values are modelled as `Option`; Python truthiness of
strings/bools/ints is modelled by explicit helper functions; Python floats
(used only for comparisons and `min`, never for rounding arithmetic) are
modelled as `ℚ`; the LLM oracle results, the random draw and the current
time are passed in explicitly as an `Env`, mirroring the spec's statement
that the LLM client and clock are external collaborators.
-/

namespace ShopAgent

/-! ## Python value helpers -/

/-- Python truthiness of an optional string: `None` and `""` are falsy. -/
def truthyStr : Option String → Bool
  | none => false
  | some s => !(s == "")

/-- Python truthiness of an optional bool: `None` is falsy. -/
def truthyBool : Option Bool → Bool
  | none => false
  | some b => b

/-- Python `x or 0` for an optional int (`None` and `0` both give `0`). -/
def pyOrZero : Option Int → Int
  | none => 0
  | some k => k

/-- Python `x or 1` for an optional int (`None` and `0` both give `1`). -/
def pyOrOne : Option Int → Int
  | none => 1
  | some k => if k = 0 then 1 else k

/-- Python `x or y` for optional ints where `y` is itself optional:
`0` and `None` fall through to `y` (source line 154 of orchestrator.py). -/
def pyOrOpt (x : Option Int) (y : Option Int) : Option Int :=
  match x with
  | none => y
  | some k => if k = 0 then y else some k

/-- Whether the first list is a leading segment of the second. -/
def leadsList : List Char → List Char → Bool
  | [], _ => true
  | _ :: _, [] => false
  | a :: as, b :: bs => a == b && leadsList as bs

/-- Occurrence check of a needle inside a haystack, by position. -/
def containsList (n : List Char) : List Char → Bool
  | [] => n == []
  | a :: t => leadsList n (a :: t) || containsList n t

/-- Python `needle in haystack` for strings. -/
def containsSub (haystack needle : String) : Bool :=
  containsList needle.toList haystack.toList

/-- Python `str.lower()` (ASCII approximation). -/
def pyLower (s : String) : String :=
  String.mk (s.toList.map Char.toLower)

/-- Python `str.strip()` with no argument. -/
def pyStrip (s : String) : String :=
  String.mk (((s.toList.dropWhile Char.isWhitespace).reverse.dropWhile
    Char.isWhitespace).reverse)

/-- Python `str.isupper()` (ASCII approximation): at least one cased
character and no lowercase character. -/
def pyIsUpper (s : String) : Bool :=
  s.toList.any Char.isAlpha && s.toList.all (fun c => !c.isLower)

/-- Whitespace-run splitter, accumulating the current word reversed. -/
def wordsAux : List Char → List Char → List (List Char)
  | [], acc => if acc.isEmpty then [] else [acc.reverse]
  | ch :: rest, acc =>
    if ch.isWhitespace then
      if acc.isEmpty then wordsAux rest [] else acc.reverse :: wordsAux rest []
    else wordsAux rest (ch :: acc)

/-- Python `str.split()` with no argument: split on whitespace runs,
dropping empty pieces. -/
def pySplitWs (s : String) : List String :=
  (wordsAux s.toList []).map String.mk

/-- Single-character splitter keeping empty pieces. -/
def splitCharAux (sep : Char) : List Char → List Char → List (List Char)
  | [], acc => [acc.reverse]
  | ch :: rest, acc =>
    if ch == sep then acc.reverse :: splitCharAux sep rest []
    else splitCharAux sep rest (ch :: acc)

/-- Python `str.split(sep)` for a one-character separator. -/
def splitChar (s : String) (sep : Char) : List String :=
  (splitCharAux sep s.toList []).map String.mk

/-- Decimal value of a digit run (Python `int` on a digit string). -/
def digitsToNat (l : List Char) : Nat :=
  l.foldl (fun n ch => n * 10 + (ch.toNat - 48)) 0

/-- Python `str(x)` for an optional string as rendered inside an f-string:
`None` prints as `"None"`. -/
def pyShowOptStr : Option String → String
  | none => "None"
  | some s => s

/-! ## Policy engine (`src/shop_agent/policy.py`) -/

/-- One entry of `tiered_discounts` (`{max_days, percent}`). -/
structure Tier where
  max_days : Int
  percent : ℚ
deriving DecidableEq, Repr

/-- `CategoryPolicy` dataclass of policy.py. -/
structure CategoryPolicy where
  name : String
  return_window_days : Int
  allowed_outcomes : List String
  discount_cap_percent : ℚ
  tiered_discounts : List Tier
  special_constraints : List String
deriving DecidableEq, Repr

/-- `PolicyOutcome` dataclass of state.py. -/
structure PolicyOutcome where
  eligible : Bool
  outcome : String
  discount_percent : ℚ
  reason : String
  refused_excess_discount : Bool := false
deriving DecidableEq, Repr

/-- `PolicyEngine._determine_discount`: the first tier whose `max_days`
bound admits the given age wins; otherwise the category cap. -/
def determineDiscount (policy : CategoryPolicy) (days_since_purchase : Int) : ℚ :=
  match policy.tiered_discounts.find? (fun t => days_since_purchase ≤ t.max_days) with
  | some t => t.percent
  | none => policy.discount_cap_percent

/-- `PolicyEngine.evaluate`. The policy table is the assoc list backing
`self.policies`; `self.policies[category]` on an absent key raises
`KeyError`, modelled as `Except.error`. -/
def evaluate (pol : List (String × CategoryPolicy)) (category intent : String)
    (days_since_purchase : Option Int) (item_opened : Option Bool)
    (requested_discount : Option ℚ) : Except String PolicyOutcome :=
  match pol.lookup category with
  | none => .error ("KeyError: " ++ category)
  | some policy =>
    let missing : List String :=
      (if days_since_purchase.isNone then ["days_since_purchase"] else []) ++
      (if intent = "return" ∧ item_opened.isNone then ["item_opened"] else [])
    if missing ≠ [] then
      .ok { eligible := false, outcome := "needs_info", discount_percent := 0,
            reason := "Missing required info: " ++ String.intercalate ", " missing ++ "." }
    else
      -- `missing = []` forces `days_since_purchase ≠ none`; `int(days_since_purchase)`.
      let days := days_since_purchase.getD 0
      let within_window := days ≤ policy.return_window_days
      if intent ∈ ["refund", "return", "replacement"] ∧ ¬ within_window then
        .ok { eligible := false, outcome := "not_eligible", discount_percent := 0,
              reason := "Return window exceeded based on store policy." }
      else if category = "Headphones & Audio" ∧ intent ∈ ["refund", "return"] ∧
          truthyBool item_opened then
        .ok { eligible := false, outcome := "not_eligible", discount_percent := 0,
              reason := "Opened in-ear headphones are not eligible for refund." }
      else if intent ∉ policy.allowed_outcomes then
        .ok { eligible := false, outcome := "not_eligible", discount_percent := 0,
              reason := "Requested outcome is not allowed for this category." }
      else if intent = "discount" then
        let discount0 := determineDiscount policy days
        let refused : Bool :=
          match requested_discount with
          | some r => decide (r > policy.discount_cap_percent)
          | none => false
        let discount1 :=
          match requested_discount with
          | some r => min discount0 r
          | none => discount0
        let discount := min discount1 policy.discount_cap_percent
        .ok { eligible := true, outcome := "discount", discount_percent := discount,
              reason := "Discount determined by policy tiers and caps.",
              refused_excess_discount := refused }
      else
        .ok { eligible := true, outcome := intent, discount_percent := 0,
              reason := "Eligible under store policy." }

/-! Spec-side definitions for claim C1, written from the spec's words
(§4.1 step 6), to be compared with the code-side `evaluate`. -/

/-- Spec: `base_discount` = percent of the first tier whose
`max_days ≥ days_since_purchase`, else `discount_cap_percent`. -/
def specBaseDiscount (policy : CategoryPolicy) (days : Int) : ℚ :=
  match policy.tiered_discounts.find? (fun t => t.max_days ≥ days) with
  | some t => t.percent
  | none => policy.discount_cap_percent

/-- Spec: if `requested_discount` is given take `min(base, requested)`;
then clamp to `discount_cap_percent`. -/
def specDiscountPercent (policy : CategoryPolicy) (days : Int) (requested : Option ℚ) : ℚ :=
  min (match requested with
       | some r => min (specBaseDiscount policy days) r
       | none => specBaseDiscount policy days)
    policy.discount_cap_percent

/-- Spec: `refused_excess = (requested is non-null AND requested > cap)`. -/
def specRefusedExcess (policy : CategoryPolicy) (requested : Option ℚ) : Bool :=
  match requested with
  | some r => decide (r > policy.discount_cap_percent)
  | none => false

/-! ## Dialog manager data model (`src/shop_agent/db.py`, `src/shop_agent/orchestrator.py`) -/

/-- `pickup_address_json` value produced by `_parse_address`
(`{"raw": ..., "parts": [...]}`). -/
structure Address where
  raw : String
  parts : List String
deriving DecidableEq, Repr

/-- The `asked_slots` Text column: NULL, a JSON-encoded list of slot names
(the only shape the code itself writes, via `json.dumps`), or stored text
that fails `json.loads` (caught, treated as empty). Stored text that parses
as JSON but is not a list makes `slot not in asked` raise `TypeError`; that
shape is discussed under claim C5 and is outside this state space. -/
inductive StoredAsked where
  | nullv : StoredAsked
  | jsonList : List String → StoredAsked
  | malformed : StoredAsked
deriving DecidableEq, Repr

/-- The `Case` row of db.py, restricted to the columns the dialog manager
reads or writes. All columns are nullable (fresh rows hold NULL). -/
structure Case where
  category : Option String := none
  intent : Option String := none
  decision : Option String := none
  status : Option String := none
  discount_percent : Option ℚ := none
  retention_step : Option Int := none
  reason : Option String := none
  days_since_purchase : Option Int := none
  purchase_date_iso : Option String := none
  furniture_assembled : Option Bool := none
  electronics_defect_claimed : Option Bool := none
  defect_evidence_present : Option Bool := none
  customer_name : Option String := none
  customer_phone : Option String := none
  pickup_address_json : Option Address := none
  ticket_number : Option String := none
  asked_slots : StoredAsked := .nullv
  last_question_slot : Option String := none
  turn_count : Option Int := none
  requested_action : Option String := none
  user_sentiment : Option String := none
  emergency_trigger : Option Bool := none
deriving DecidableEq, Repr

/-- The record of attributes `DialogManager._update_nlu` reads off the NLU
oracle result (`generate_json` is duck-typed; these are exactly the
`result.<field>` accesses on lines 86-109 of orchestrator.py). The
`NLUUpdate` schema that models.py actually declares is captured separately
as `nluUpdateModelFields` for claim C5. -/
structure NLUResult where
  category : Option String := none
  intent : Option String := none
  requested_action : Option String := none
  days_since_purchase : Option Int := none
  purchase_date_iso : Option String := none
  furniture_assembled : Option Bool := none
  electronics_defect_claimed : Option Bool := none
  defect_evidence_present : Option Bool := none
  user_sentiment : Option String := none
  emergency_trigger : Option Bool := none
deriving DecidableEq, Repr

/-- `ImageClassification` model of models.py (fields the orchestrator reads). -/
structure ImageClassification where
  item_name_guess : String := ""
  category : String := ""
  confidence : ℚ := 0
  observations : String := ""
  needs_clarification : Bool := false
deriving DecidableEq, Repr

/-- The per-turn external inputs of `handle_turn`: the two oracle results,
the `random.randint(0, 99999999)` draw, and `datetime.utcnow()` expressed
in whole days. These are the effects the core consumes. -/
structure Env where
  nlu : NLUResult := {}
  classify : ImageClassification := {}
  rng : Nat := 0
  nowDays : Int := 0
deriving DecidableEq, Repr

/-- Result triple of `handle_turn` plus the mutated session row. -/
structure TurnResult where
  reply : String
  status : Option String
  nextq : Option String
  state : Case
deriving DecidableEq, Repr

/-- Decision dict returned by `_decision_tree` (the `"decision"` and
`"reason"` keys the composer reads). -/
structure Decision where
  decision : String
  reason : String
deriving DecidableEq, Repr

def CATEGORIES : List String := ["FOOD", "FURNITURE", "ELECTRONICS", "ART"]

def INTENTS : List String := ["WANT_REFUND", "ARRIVED_BROKEN", "DID_NOT_LIKE"]

/-! ## Slot parsers (static methods of `DialogManager`) -/

/-- First maximal digit run of a character list (Python `re.search(r"(\d+)")`). -/
def firstDigitRun : List Char → Option (List Char)
  | [] => none
  | c :: rest =>
    if c.isDigit then some (c :: rest.takeWhile Char.isDigit)
    else firstDigitRun rest

/-- `_parse_days`: first integer in the message. -/
def parseDays (message : String) : Option Int :=
  (firstDigitRun message.toList).map (fun run => (digitsToNat run : Int))

/-- `_parse_yes_no`. -/
def parseYesNo (message : String) : Option Bool :=
  let text := pyLower message
  if containsSub text "yes" || containsSub text "да" || containsSub text "yep" then some true
  else if containsSub text "no" || containsSub text "нет" || containsSub text "nope" then some false
  else if containsSub text "unassembled" || containsSub text "not assembled" then some false
  else if containsSub text "assembled" then some true
  else none

/-- `_parse_defect_claim`. -/
def parseDefectClaim (message : String) : Option Bool :=
  let text := pyLower message
  if containsSub text "defective" || containsSub text "broken" ||
      containsSub text "doesn\x27t work" then some true
  else if containsSub text "changed my mind" || containsSub text "don\x27t like" then some false
  else none

/-- `_parse_intent`. -/
def parseIntent (message : String) : Option String :=
  let text := pyLower message
  if containsSub text "broken" || containsSub text "defective" then some "ARRIVED_BROKEN"
  else if containsSub text "refund" then some "WANT_REFUND"
  else if containsSub text "not like" || containsSub text "changed my mind" then
    some "DID_NOT_LIKE"
  else none

/-- `_parse_category`. -/
def parseCategory (message : String) : Option String :=
  let text := pyLower message
  if containsSub text "food" then some "FOOD"
  else if containsSub text "furniture" || containsSub text "table" ||
      containsSub text "chair" then some "FURNITURE"
  else if containsSub text "electronic" || containsSub text "laptop" ||
      containsSub text "phone" then some "ELECTRONICS"
  else if containsSub text "art" || containsSub text "painting" then some "ART"
  else none

/-- `_parse_phone`: strip non-digits, accept when at least 10 remain. -/
def parsePhone (message : String) : Option String :=
  let digits := message.toList.filter Char.isDigit
  if digits.length ≥ 10 then some (String.mk digits) else none

/-- `_parse_address`: comma-split, keep non-empty trimmed parts, need ≥ 3. -/
def parseAddress (message : String) : Option Address :=
  let parts := ((splitChar message ',').map pyStrip).filter (fun p => !(p == ""))
  if parts.length < 3 then none
  else some { raw := pyStrip message, parts := parts }

/-- `_detect_emergency`: all-caps shouting longer than 8 characters, or a
trigger keyword. -/
def detectEmergency (message : String) : Bool :=
  let text := pyStrip message
  if pyIsUpper text && text.length > 8 then true
  else
    let lowered := pyLower text
    ["lawsuit", "sue", "reviews", "consumer protection", "роспотребнадзор"].any
      (fun t => containsSub lowered t)

/-! ## Dates (`_days_from_date`) -/

def isLeapYear (y : Int) : Bool :=
  (y % 4 == 0 && y % 100 != 0) || (y % 400 == 0)

def daysInMonth (y m : Int) : Int :=
  if m = 2 then (if isLeapYear y then 29 else 28)
  else if m ∈ ([4, 6, 9, 11] : List Int) then 30
  else 31

/-- Days since the Unix epoch of a civil date (standard civil-from-days
inverse; year is ≥ 1 for every parsed date). -/
def civilToDays (y m d : Int) : Int :=
  let y' := if m ≤ 2 then y - 1 else y
  let era := (if 0 ≤ y' then y' else y' - 399) / 400
  let yoe := y' - era * 400
  let mp := if 2 < m then m - 3 else m + 9
  let doy := (153 * mp + 2) / 5 + d - 1
  let doe := yoe * 365 + yoe / 4 - yoe / 100 + doy
  era * 146097 + doe - 719468

def allDigits (s : String) : Bool :=
  s.length > 0 && s.toList.all Char.isDigit

/-- `datetime.fromisoformat` restricted to the `YYYY-MM-DD` shape (the
source also accepts time-of-day suffixes; no claim depends on those), as a
day count. Invalid text is `none` (the `ValueError` the source catches). -/
def parseIsoDays (s : String) : Option Int :=
  match splitChar s '-' with
  | [y, m, d] =>
    if allDigits y && allDigits m && allDigits d &&
        y.length == 4 && m.length == 2 && d.length == 2 then
      let yn : Int := (digitsToNat y.toList : Nat)
      let mn : Int := (digitsToNat m.toList : Nat)
      let dn : Int := (digitsToNat d.toList : Nat)
      if 1 ≤ yn ∧ 1 ≤ mn ∧ mn ≤ 12 ∧ 1 ≤ dn ∧ dn ≤ daysInMonth yn mn then
        some (civilToDays yn mn dn)
      else none
    else none
  | _ => none

/-- `_days_from_date`: `(datetime.utcnow() - parsed).days`, at whole-day
granularity, with `None`/empty/unparsable text giving `None`. -/
def daysFromDate (nowDays : Int) (date_iso : Option String) : Option Int :=
  match date_iso with
  | none => none
  | some s => if s = "" then none else (parseIsoDays s).map (fun d => nowDays - d)

/-! ## Dialog manager operations -/

/-- `_asked_slots`: `json.loads` of the stored text, `[]` on NULL/empty or
`JSONDecodeError`. -/
def askedSlotsFn (c : Case) : List String :=
  match c.asked_slots with
  | .jsonList l => l
  | _ => []

/-- `_mark_asked`: append the slot unless already present, re-serialize. -/
def markAsked (c : Case) (slot : String) : Case :=
  let asked := askedSlotsFn c
  let asked := if slot ∈ asked then asked else asked ++ [slot]
  { c with asked_slots := .jsonList asked }

/-- `_should_run_nlu`: any tracked field still `None`. -/
def shouldRunNlu (c : Case) : Bool :=
  c.category.isNone || c.intent.isNone || c.days_since_purchase.isNone ||
  c.purchase_date_iso.isNone || c.furniture_assembled.isNone ||
  c.electronics_defect_claimed.isNone || c.defect_evidence_present.isNone ||
  c.emergency_trigger.isNone

/-- `_update_classification` merge gate: reject on `needs_clarification` or
confidence below 0.70; adopt the category only when in the declared set. -/
def updateClassification (c : Case) (r : ImageClassification) : Case :=
  if r.needs_clarification || r.confidence < 7/10 then c
  else if r.category ∈ CATEGORIES then { c with category := some r.category }
  else c

/-! `_update_nlu` (lines 86-109 of orchestrator.py) is a straight-line
sequence of guarded assignments; each statement is embedded as one merge
step and `updateNlu` is their composition in program order. -/

/-- Lines 86-87: `if result.category in CATEGORIES`. -/
def nluMergeCategory (c : Case) (r : NLUResult) : Case :=
  match r.category with
  | some s => if s ∈ CATEGORIES then { c with category := some s } else c
  | none => c

/-- Lines 88-93: `if result.intent in INTENTS` with the two
`electronics_defect_claimed` side effects. -/
def nluMergeIntent (c : Case) (r : NLUResult) : Case :=
  match r.intent with
  | some s =>
    if s ∈ INTENTS then
      let c := { c with intent := some s }
      let c := if s = "ARRIVED_BROKEN" then
          { c with electronics_defect_claimed := some true } else c
      if s = "DID_NOT_LIKE" then
        { c with electronics_defect_claimed := some false } else c
    else c
  | none => c

/-- Lines 94-95: `if result.requested_action:` (truthiness). -/
def nluMergeRequestedAction (c : Case) (r : NLUResult) : Case :=
  if truthyStr r.requested_action then
    { c with requested_action := r.requested_action } else c

/-- Lines 96-97: `if result.days_since_purchase is not None`. -/
def nluMergeDays (c : Case) (r : NLUResult) : Case :=
  match r.days_since_purchase with
  | some d => { c with days_since_purchase := some d }
  | none => c

/-- Lines 98-99: `if result.purchase_date_iso:` (truthiness). -/
def nluMergeDate (c : Case) (r : NLUResult) : Case :=
  if truthyStr r.purchase_date_iso then
    { c with purchase_date_iso := r.purchase_date_iso } else c

/-- Lines 100-101: `if result.furniture_assembled is not None`. -/
def nluMergeFurniture (c : Case) (r : NLUResult) : Case :=
  match r.furniture_assembled with
  | some b => { c with furniture_assembled := some b }
  | none => c

/-- Lines 102-103: `if result.electronics_defect_claimed is not None`. -/
def nluMergeDefectClaimed (c : Case) (r : NLUResult) : Case :=
  match r.electronics_defect_claimed with
  | some b => { c with electronics_defect_claimed := some b }
  | none => c

/-- Lines 104-105: `if result.defect_evidence_present is not None`. -/
def nluMergeEvidence (c : Case) (r : NLUResult) : Case :=
  match r.defect_evidence_present with
  | some b => { c with defect_evidence_present := some b }
  | none => c

/-- Lines 106-107: `if result.user_sentiment:` (truthiness). -/
def nluMergeSentiment (c : Case) (r : NLUResult) : Case :=
  if truthyStr r.user_sentiment then
    { c with user_sentiment := r.user_sentiment } else c

/-- Lines 108-109: `if result.emergency_trigger is not None`. -/
def nluMergeEmergency (c : Case) (r : NLUResult) : Case :=
  match r.emergency_trigger with
  | some b => { c with emergency_trigger := some b }
  | none => c

/-- `_update_nlu` merge (lines 86-109 of orchestrator.py), given the
attribute record the code reads off the oracle result. -/
def updateNlu (c : Case) (r : NLUResult) : Case :=
  nluMergeEmergency (nluMergeSentiment (nluMergeEvidence (nluMergeDefectClaimed
    (nluMergeFurniture (nluMergeDate (nluMergeDays (nluMergeRequestedAction
      (nluMergeIntent (nluMergeCategory c r) r) r) r) r) r) r) r) r) r

/-- `_missing_slots`: the ordered required-but-unfilled slot list. -/
def missingSlots (c : Case) : List String :=
  (if truthyStr c.category then [] else ["category"]) ++
  (if truthyStr c.intent then [] else ["intent"]) ++
  (if c.category = some "FURNITURE" then
    (if c.days_since_purchase.isNone && !truthyStr c.purchase_date_iso then
      ["days_since_purchase"] else []) ++
    (match c.days_since_purchase with
     | some d => if d ≤ 7 ∧ c.furniture_assembled.isNone then ["furniture_assembled"] else []
     | none => [])
  else []) ++
  (if c.category = some "ELECTRONICS" then
    (match c.electronics_defect_claimed with
     | none => ["electronics_defect_claimed"]
     | some b => if b ∧ c.defect_evidence_present.isNone then
         ["defect_evidence_present"] else [])
  else []) ++
  (if c.category = some "ART" then
    (if truthyStr c.customer_name then [] else ["customer_name"]) ++
    (if c.pickup_address_json.isNone then ["pickup_address_json"] else []) ++
    (if truthyStr c.customer_phone then [] else ["customer_phone"])
  else [])

/-- `_apply_followup_parser`: interpret the message against the slot just
asked; on success fill the slot and clear `last_question_slot`. An unset or
empty `last_question_slot` (Python falsy) and unknown slot names fall
through unchanged. -/
def applyFollowup (c : Case) (message : String) : Case :=
  if !truthyStr c.last_question_slot then c
  else
    let slot := c.last_question_slot.getD ""
    if slot = "days_since_purchase" then
      match parseDays message with
      | some v => { c with days_since_purchase := some v, last_question_slot := none }
      | none => c
    else if slot = "furniture_assembled" then
      match parseYesNo message with
      | some v => { c with furniture_assembled := some v, last_question_slot := none }
      | none => c
    else if slot = "electronics_defect_claimed" then
      match parseDefectClaim message with
      | some v => { c with electronics_defect_claimed := some v, last_question_slot := none }
      | none => c
    else if slot = "defect_evidence_present" then
      match parseYesNo message with
      | some v => { c with defect_evidence_present := some v, last_question_slot := none }
      | none => c
    else if slot = "customer_name" then
      if (pySplitWs message).length ≥ 2 then
        { c with customer_name := some (pyStrip message), last_question_slot := none }
      else c
    else if slot = "customer_phone" then
      match parsePhone message with
      | some p => { c with customer_phone := some p, last_question_slot := none }
      | none => c
    else if slot = "pickup_address_json" then
      match parseAddress message with
      | some a => { c with pickup_address_json := some a, last_question_slot := none }
      | none => c
    else if slot = "intent" then
      match parseIntent message with
      | some i => { c with intent := some i, last_question_slot := none }
      | none => c
    else if slot = "category" then
      match parseCategory message with
      | some k => { c with category := some k, last_question_slot := none }
      | none => c
    else c

/-- `_approve`. -/
def approve (c : Case) (reason : String) : Case × Decision :=
  ({ c with decision := some "approved", status := some "approved", reason := some reason },
   { decision := "approved", reason := reason })

/-- `_retention_discount`. -/
def retentionDiscount (step : Int) : ℚ :=
  if step = 1 then 0
  else if step = 2 then 6
  else if step = 3 then 11
  else 20

/-- `_retention`: escalate the retention step (emergency snaps to 4) and
set the step's discount. -/
def retention (c : Case) (reason : String) : Case × Decision :=
  let c := { c with decision := some "retention", status := some "retention",
                    reason := some reason }
  let step : Int :=
    if truthyBool c.emergency_trigger then 4
    else min (pyOrZero c.retention_step + 1) 4
  ({ c with retention_step := some step,
            discount_percent := some (retentionDiscount step) },
   { decision := "retention", reason := reason })

/-- `_decision_tree`. -/
def decisionTree (c : Case) (env : Env) : Case × Decision :=
  if c.category = some "FOOD" then
    retention c "Returns are not available for food items."
  else if c.category = some "ART" then
    approve c "Return approved for art items."
  else if c.category = some "ELECTRONICS" then
    if c.electronics_defect_claimed = some false then
      retention c "Electronics returns are only for defective items."
    else if truthyBool c.electronics_defect_claimed ∧
        !truthyBool c.defect_evidence_present then
      ({ c with status := some "awaiting_evidence" },
       { decision := "needs_evidence",
         reason := "Please provide a photo/video or clear defect symptoms." })
    else approve c "Defect confirmed for electronics."
  else if c.category = some "FURNITURE" then
    match pyOrOpt c.days_since_purchase (daysFromDate env.nowDays c.purchase_date_iso) with
    | none =>
      ({ c with status := some "needs_info" },
       { decision := "needs_info", reason := "Need purchase timing." })
    | some d =>
      if d > 7 then retention c "Furniture returns are limited to 7 days."
      else if truthyBool c.furniture_assembled then
        retention c "Assembled furniture cannot be returned."
      else approve c "Furniture return approved."
  else retention c "Unable to match policy, using retention."

/-- `f"{random.randint(0, 99999999):08d}"`: the draw, zero-padded to 8. -/
def ticketString (n : Nat) : String :=
  let s := toString (n % 100000000)
  String.mk (List.replicate (8 - s.length) '0') ++ s

/-- `_data_collection_reply`: the approved-path sub-flow. -/
def dataCollectionReply (c : Case) (env : Env) : Case × String :=
  if !truthyStr c.customer_name then
    let c := markAsked c "customer_name"
    ({ c with last_question_slot := some "customer_name" },
     "Please provide your full name.")
  else if c.pickup_address_json.isNone then
    let c := markAsked c "pickup_address_json"
    ({ c with last_question_slot := some "pickup_address_json" },
     "Please provide your pickup address (city, street, house, apt).")
  else if !truthyStr c.customer_phone then
    let c := markAsked c "customer_phone"
    ({ c with last_question_slot := some "customer_phone" },
     "Please provide your phone number.")
  else
    let c := if !truthyStr c.ticket_number then
        { c with ticket_number := some (ticketString env.rng) } else c
    (c, "Request #" ++ (c.ticket_number.getD "") ++ " created. Courier will contact you.")

/-- `_retention_reply`. -/
def retentionReply (c : Case) : String :=
  let step := pyOrOne c.retention_step
  if step = 1 then
    "I’m sorry this didn’t work out. While returns aren’t available, I can assist further."
  else if step = 2 then "I can offer a 6% goodwill coupon to help."
  else if step = 3 then "I checked with my manager and can offer an 11% coupon."
  else "Given the situation, I can offer a 20% coupon as a final option."

/-- `_build_decision_reply`. -/
def buildDecisionReply (c : Case) (d : Decision) (env : Env) : Case × String :=
  if d.decision = "approved" then dataCollectionReply c env
  else if d.decision = "needs_evidence" then (c, d.reason)
  else if d.decision = "retention" then (c, retentionReply c)
  else (c, "Thanks. Let me review your case.")

/-- `_ask_next` (the slot argument is `missing[0]`). -/
def askNext (c : Case) (slot : String) : Case × String :=
  let c := markAsked c slot
  let c := { c with last_question_slot := some slot, status := some "needs_info" }
  (c,
   if slot = "category" then
     "What category is the product (FOOD, FURNITURE, ELECTRONICS, ART)?"
   else if slot = "intent" then
     "Is the issue a refund request, arrived broken, or did not like it?"
   else if slot = "days_since_purchase" then "How many days since purchase?"
   else if slot = "furniture_assembled" then "Was the furniture assembled? (yes/no)"
   else if slot = "electronics_defect_claimed" then
     "Is it defective/broken, or did you change your mind?"
   else if slot = "defect_evidence_present" then
     "Do you have evidence of the defect (image/video or clear symptoms)?"
   else if slot = "customer_name" then "Please provide your full name."
   else if slot = "pickup_address_json" then
     "Please provide your pickup address (city, street, house, apt)."
   else if slot = "customer_phone" then "Please provide your phone number."
   else "Could you provide the missing detail?")

def slotLabels : List (String × String) :=
  [("category", "product category"),
   ("intent", "issue type (refund, arrived broken, did not like)"),
   ("days_since_purchase", "days since purchase"),
   ("furniture_assembled", "whether the furniture was assembled"),
   ("electronics_defect_claimed", "whether it is defective"),
   ("defect_evidence_present", "defect evidence details"),
   ("customer_name", "full name"),
   ("pickup_address_json", "pickup address"),
   ("customer_phone", "phone number")]

/-- `_slot_label` (`labels.get(slot, "missing detail")`). -/
def slotLabel (slot : String) : String :=
  (slotLabels.lookup slot).getD "missing detail"

/-- `_fallback_reply` (the slot used is `missing[0]`). -/
def fallbackReply (c : Case) (missing : List String) : String :=
  "Summary: category=" ++ pyShowOptStr c.category ++ ", intent=" ++
    pyShowOptStr c.intent ++ ". I need one more detail: " ++
    slotLabel (missing.headD "") ++ "."

/-- `handle_turn` lines 36-41: bookkeeping, emergency detector, follow-up
parsing, optional image classification. -/
def preNlu (c : Case) (message : String) (hasImage : Bool) (env : Env) : Case :=
  let c := { c with turn_count := some (pyOrZero c.turn_count + 1) }
  let c := if detectEmergency message then { c with emergency_trigger := some true } else c
  let c := applyFollowup c message
  if hasImage then updateClassification c env.classify else c

/-- `handle_turn` lines 36-43: the pre-NLU phase followed by the guarded
NLU merge. -/
def nluPhase (c : Case) (message : String) (hasImage : Bool) (env : Env) : Case :=
  let c := preNlu c message hasImage env
  if shouldRunNlu c then updateNlu c env.nlu else c

/-- `handle_turn` lines 44-56: missing-slot computation and action choice
(fallback summary / ask next / stall / decision tree + reply composition). -/
def respond (c : Case) (env : Env) : TurnResult :=
  let missing := missingSlots c
  let missingUnasked := missing.filter (fun s => !(decide (s ∈ askedSlotsFn c)))
  if pyOrZero c.turn_count ≥ 8 ∧ missing ≠ [] then
    { reply := fallbackReply c missing, status := c.status,
      nextq := missing.head?, state := c }
  else if missingUnasked ≠ [] then
    let p := askNext c (missingUnasked.headD "")
    { reply := p.2, status := p.1.status, nextq := missingUnasked.head?, state := p.1 }
  else if missing ≠ [] then
    { reply := "Thanks. I can proceed once the remaining detail is provided.",
      status := c.status, nextq := missing.head?, state := c }
  else
    let p := decisionTree c env
    let q := buildDecisionReply p.1 p.2 env
    { reply := q.2, status := q.1.status, nextq := none, state := q.1 }

/-- `DialogManager.handle_turn`. -/
def handleTurn (c : Case) (message : String) (hasImage : Bool) (env : Env) : TurnResult :=
  respond (nluPhase c message hasImage env) env

/-- A whole session: fold `handle_turn` over a turn sequence. -/
def runTurns (c : Case) (turns : List (String × Bool × Env)) : Case :=
  turns.foldl (fun c t => (handleTurn c t.1 t.2.1 t.2.2).state) c

/-! ## models.py vs orchestrator.py attribute sets (claim C5) -/

/-- The fields the `NLUUpdate` pydantic model in models.py declares. -/
def nluUpdateModelFields : List String :=
  ["user_goal", "user_goal_summary", "category", "days_since_purchase",
   "item_opened", "condition", "purchase_price", "amazon_asin", "amazon_url",
   "requested_discount"]

/-- The attributes `_update_nlu` reads off the oracle result, in program
order (orchestrator.py lines 86-109). -/
def updateNluAttributeReads : List String :=
  ["category", "intent", "requested_action", "days_since_purchase",
   "purchase_date_iso", "furniture_assembled", "electronics_defect_claimed",
   "defect_evidence_present", "user_sentiment", "emergency_trigger"]

/-- Python attribute access on a pydantic model raises `AttributeError` for
an undeclared field; this is the first read of `_update_nlu` that does so
when the oracle result is a models.py `NLUUpdate` instance. -/
def firstMissingAttributeRead : Option String :=
  updateNluAttributeReads.find? (fun f => !(decide (f ∈ nluUpdateModelFields)))

/-! ## Invariant predicates and the claims under test -/

/-- The cap invariant of claim C2: a stored discount never exceeds 20%. -/
def discountOK (c : Case) : Prop :=
  ∀ q : ℚ, c.discount_percent = some q → q ≤ 20

/-- Claim C3 as stated: an unknown category yields a `needs_info` outcome
with reason `"Unknown category"` instead of an exception. -/
def claimC3 : Prop :=
  ∀ (pol : List (String × CategoryPolicy)) (cat intent : String)
    (days : Option Int) (opened : Option Bool) (req : Option ℚ),
    pol.lookup cat = none →
    evaluate pol cat intent days opened req =
      .ok { eligible := false, outcome := "needs_info", discount_percent := 0,
            reason := "Unknown category" }

/-- Claim C4 as stated: for a known category, `needs_info` exactly when a
mandatory input is null, with `item_opened` mandatory for intent `refund`
as well as `return`. -/
def claimC4 : Prop :=
  ∀ (pol : List (String × CategoryPolicy)) (cat : String) (p : CategoryPolicy)
    (intent : String) (days : Option Int) (opened : Option Bool) (req : Option ℚ)
    (out : PolicyOutcome),
    pol.lookup cat = some p →
    evaluate pol cat intent days opened req = .ok out →
    (out.outcome = "needs_info" ↔
      days = none ∨ ((intent = "refund" ∨ intent = "return") ∧ opened = none))

/-- Claim C6 as stated: once the turn counter has reached 8 no branch emits
a new question or sets `last_question_slot`, and with missing slots the
reply is the fallback summary. -/
def claimC6 : Prop :=
  ∀ (c : Case) (m : String) (i : Bool) (e : Env),
    pyOrZero (handleTurn c m i e).state.turn_count ≥ 8 →
    (handleTurn c m i e).state.last_question_slot = (nluPhase c m i e).last_question_slot ∧
    askedSlotsFn (handleTurn c m i e).state = askedSlotsFn (nluPhase c m i e) ∧
    (missingSlots (nluPhase c m i e) ≠ [] →
      (handleTurn c m i e).reply =
        fallbackReply (nluPhase c m i e) (missingSlots (nluPhase c m i e)))

/-- Claim C7 as stated: `asked_slots` grows monotonically without
duplicates, and every question-emitting operation — the ask-next rule and
the approved data-collection sub-flow — emits a question for a slot only
when that slot is not already in `asked_slots`. -/
def claimC7 : Prop :=
  (∀ (c : Case) (m : String) (i : Bool) (e : Env),
    List.Sublist (askedSlotsFn c) (askedSlotsFn (handleTurn c m i e).state)) ∧
  (∀ (c : Case) (m : String) (i : Bool) (e : Env),
    (askedSlotsFn c).Nodup → (askedSlotsFn (handleTurn c m i e).state).Nodup) ∧
  (∀ (c : Case) (e : Env),
    (dataCollectionReply c e).2 = "Please provide your full name." →
    "customer_name" ∉ askedSlotsFn c)

/-- Claim C8 as stated (its concrete consequences for the branches it
names): the fallback-summary branch and the stall branch return a null
`next_question_slot`, it being non-null only when a question was asked. -/
def claimC8 : Prop :=
  ∀ (c : Case) (m : String) (i : Bool) (e : Env),
    (pyOrZero (nluPhase c m i e).turn_count ≥ 8 ∧ missingSlots (nluPhase c m i e) ≠ [] →
      (handleTurn c m i e).nextq = none) ∧
    ((missingSlots (nluPhase c m i e)).filter
        (fun s => !(decide (s ∈ askedSlotsFn (nluPhase c m i e)))) = [] →
      missingSlots (nluPhase c m i e) ≠ [] →
      (handleTurn c m i e).nextq = none)

/-- Claim C9 as stated: `handle_turn` is deterministic given the session
state, the message/image and the oracle results (the LLM extraction and
classification); the random draw and the clock are not among the listed
inputs. -/
def claimC9 : Prop :=
  ∀ (c : Case) (m : String) (i : Bool) (e1 e2 : Env),
    e1.nlu = e2.nlu → e1.classify = e2.classify →
    handleTurn c m i e1 = handleTurn c m i e2

/-! Concrete inputs used by witnesses and counterexamples. -/

/-- A small policy table (policies.json is not part of src/; the table is
data, and the policy theorems quantify over arbitrary tables). -/
def pPhones : CategoryPolicy :=
  { name := "Phones", return_window_days := 14,
    allowed_outcomes := ["refund", "discount"], discount_cap_percent := 12,
    tiered_discounts := [⟨7, 12⟩, ⟨14, 8⟩], special_constraints := [] }

def polPhones : List (String × CategoryPolicy) := [("Phones", pPhones)]

def pElectronics : CategoryPolicy :=
  { name := "Electronics", return_window_days := 30,
    allowed_outcomes := ["refund", "return", "replacement"],
    discount_cap_percent := 15, tiered_discounts := [⟨10, 10⟩],
    special_constraints := [] }

def polElectronics : List (String × CategoryPolicy) := [("Electronics", pElectronics)]

/-- An approved-path ELECTRONICS session about to enter data collection,
with all NLU-tracked fields populated and the turn budget one short of 8. -/
def caseBudget : Case :=
  { category := some "ELECTRONICS", intent := some "WANT_REFUND",
    days_since_purchase := some 1, purchase_date_iso := some "2024-01-01",
    furniture_assembled := some false, electronics_defect_claimed := some true,
    defect_evidence_present := some true, emergency_trigger := some false,
    turn_count := some 7 }

/-- An approved-path ELECTRONICS session ready for ticket assignment. -/
def caseTicket : Case :=
  { category := some "ELECTRONICS", intent := some "WANT_REFUND",
    electronics_defect_claimed := some true, defect_evidence_present := some true,
    customer_name := some "John Doe", customer_phone := some "1234567890",
    pickup_address_json := some { raw := "a, b, c", parts := ["a", "b", "c"] },
    turn_count := some 0 }

/-- A session whose `customer_name` was already asked (it is in
`asked_slots`) but never answered. -/
def caseAskedName : Case :=
  { asked_slots := .jsonList ["customer_name"] }

/-- A fresh session at its eighth turn with everything still missing. -/
def caseEighth : Case :=
  { turn_count := some 7 }

/-! ## Helper lemmas -/

theorem specBaseDiscount_eq_determineDiscount (p : CategoryPolicy) (d : Int) :
    specBaseDiscount p d = determineDiscount p d := by
  unfold specBaseDiscount determineDiscount
  have h : (fun t : Tier => decide (t.max_days ≥ d)) =
      (fun t : Tier => decide (d ≤ t.max_days)) := by
    funext t
    simp [ge_iff_le]
  rw [h]

/-! ## Claim C1 -/

/-- Claim C1: for every category known to the policy table, with
`days_since_purchase` given and `"discount"` among the category's allowed
outcomes, `evaluate` with intent `"discount"` returns an eligible
`discount` outcome whose percent is the spec's tier-then-min-then-clamp
value and whose `refused_excess_discount` flag is set exactly when the
request exceeds the cap. -/
theorem C1_discount_evaluation (pol : List (String × CategoryPolicy))
    (cat : String) (p : CategoryPolicy) (days : Int) (opened : Option Bool)
    (req : Option ℚ) (hlook : pol.lookup cat = some p)
    (hallow : "discount" ∈ p.allowed_outcomes) :
    evaluate pol cat "discount" (some days) opened req =
      .ok { eligible := true, outcome := "discount",
            discount_percent := specDiscountPercent p days req,
            reason := "Discount determined by policy tiers and caps.",
            refused_excess_discount := specRefusedExcess p req } := by
  unfold evaluate
  rw [hlook]
  simp [hallow, specDiscountPercent, specRefusedExcess,
    specBaseDiscount_eq_determineDiscount]

/-- Witness for C1 at a concrete table and inputs. -/
theorem C1_discount_evaluation_witness :
    evaluate polPhones "Phones" "discount" (some 3) (some false) (some 50) =
      .ok { eligible := true, outcome := "discount", discount_percent := 12,
            reason := "Discount determined by policy tiers and caps.",
            refused_excess_discount := true } := by
  rw [C1_discount_evaluation polPhones "Phones" pPhones 3 (some false)
    (some 50) (by decide) (by decide)]
  rw [show specDiscountPercent pPhones 3 (some 50) = 12 from by decide,
    show specRefusedExcess pPhones (some 50) = true from by decide]

/-! ## Claim C3 -/

/-- Counterexample to claim C3 as stated: on a category absent from the
table, `evaluate` raises `KeyError` (the bare `self.policies[category]`
subscript) instead of returning the promised `needs_info` outcome. -/
theorem C3_counterexample : ¬ claimC3 := by
  intro h
  have h2 := h [] "Phones" "discount" (some 1) none none rfl
  exact Except.noConfusion h2

/-- Claim C3 amended: `evaluate` raises `KeyError` exactly on a category
unknown to the table; for a known category it never throws — every result
is an encoded `PolicyOutcome`. -/
theorem C3_unknown_category_raises (pol : List (String × CategoryPolicy))
    (cat intent : String) (days : Option Int) (opened : Option Bool)
    (req : Option ℚ) :
    (pol.lookup cat = none →
      evaluate pol cat intent days opened req = .error ("KeyError: " ++ cat)) ∧
    (∀ p, pol.lookup cat = some p →
      ∃ out, evaluate pol cat intent days opened req = .ok out) := by
  constructor
  · intro h
    unfold evaluate
    rw [h]
  · intro p hp
    unfold evaluate
    rw [hp]
    dsimp only
    repeat' split
    all_goals exact ⟨_, rfl⟩

/-- Witness for the amended C3 at concrete inputs. -/
theorem C3_unknown_category_raises_witness :
    evaluate [] "X" "refund" (some 1) none none = .error ("KeyError: " ++ "X") ∧
    ∃ out, evaluate polPhones "Phones" "refund" (some 1) (some false) none = .ok out :=
  ⟨(C3_unknown_category_raises [] "X" "refund" (some 1) none none).1 rfl,
   (C3_unknown_category_raises polPhones "Phones" "refund" (some 1) (some false) none).2
     pPhones (by decide)⟩

/-! ## Claim C4 -/

/-- Counterexample to claim C4 as stated: with intent `refund` and
`item_opened` null, `evaluate` does not return `needs_info` — the code
requires `item_opened` only for intent `return`. -/
theorem C4_counterexample : ¬ claimC4 := by
  intro h
  have h2 := h polElectronics "Electronics" pElectronics "refund" (some 5) none none
    { eligible := true, outcome := "refund", discount_percent := 0,
      reason := "Eligible under store policy." } (by decide) rfl
  have h3 := h2.mpr (Or.inr ⟨Or.inl rfl, rfl⟩)
  exact absurd h3 (by decide)

/-- Claim C4 amended: for a known category and an intent drawn from the
outcome kinds, `evaluate` returns `needs_info` iff `days_since_purchase`
is null or the intent is `return` with `item_opened` null (`item_opened`
is mandatory only for `return`, not for `refund`). -/
theorem C4_needs_info_iff (pol : List (String × CategoryPolicy)) (cat : String)
    (p : CategoryPolicy) (intent : String) (days : Option Int)
    (opened : Option Bool) (req : Option ℚ) (out : PolicyOutcome)
    (hlook : pol.lookup cat = some p)
    (hintent : intent ∈ ["refund", "return", "replacement", "discount"])
    (hout : evaluate pol cat intent days opened req = .ok out) :
    out.outcome = "needs_info" ↔ days = none ∨ (intent = "return" ∧ opened = none) := by
  unfold evaluate at hout
  rw [hlook] at hout
  dsimp only at hout
  cases days with
  | none =>
    rw [if_pos (by simp)] at hout
    injection hout with h
    rw [← h]
    simp
  | some d =>
    simp only [Option.isNone_some, Bool.false_eq_true, if_false,
      List.nil_append] at hout
    by_cases hro : intent = "return" ∧ opened.isNone
    · rw [if_pos hro, if_pos (by simp)] at hout
      injection hout with h
      rw [← h]
      simp [hro.1, Option.isNone_iff_eq_none.mp hro.2]
    · rw [if_neg hro, if_neg (by simp)] at hout
      have hro' : ¬ (intent = "return" ∧ opened = none) := by
        intro hpair
        exact hro ⟨hpair.1, by rw [hpair.2]; rfl⟩
      have houtc : out.outcome = "not_eligible" ∨ out.outcome = "discount" ∨
          out.outcome = intent := by
        split at hout
        · injection hout with h; rw [← h]; exact Or.inl rfl
        · split at hout
          · injection hout with h; rw [← h]; exact Or.inl rfl
          · split at hout
            · injection hout with h; rw [← h]; exact Or.inl rfl
            · split at hout
              · injection hout with h; rw [← h]; exact Or.inr (Or.inl rfl)
              · injection hout with h; rw [← h]; exact Or.inr (Or.inr rfl)
      constructor
      · intro hni
        rcases houtc with hc | hc | hc
        · rw [hc] at hni; exact absurd hni (by decide)
        · rw [hc] at hni; exact absurd hni (by decide)
        · rw [hc] at hni
          rw [hni] at hintent
          simp at hintent
      · intro hrhs
        rcases hrhs with hd | hr
        · exact absurd hd (by simp)
        · exact absurd hr hro'

/-- Witness for the amended C4: a `return` evaluation with everything
missing is `needs_info`. -/
theorem C4_needs_info_iff_witness :
    (({ eligible := false, outcome := "needs_info", discount_percent := 0,
        reason := "Missing required info: days_since_purchase, item_opened." } :
        PolicyOutcome).outcome = "needs_info") ↔
      ((none : Option Int) = none ∨
        (("return" : String) = "return" ∧ (none : Option Bool) = none)) :=
  C4_needs_info_iff polPhones "Phones" pPhones "return" none none none _
    (by decide) (by decide) rfl

/-! ## Characterization of the NLU merge steps -/

theorem nluMergeCategory_eq (c : Case) (r : NLUResult) :
    nluMergeCategory c r =
      { c with category :=
          match r.category with
          | some s => if s ∈ CATEGORIES then some s else c.category
          | none => c.category } := by
  unfold nluMergeCategory
  cases r.category with
  | none => rfl
  | some s =>
    dsimp only
    split <;> rfl

theorem nluMergeIntent_eq (c : Case) (r : NLUResult) :
    nluMergeIntent c r =
      { c with
          intent :=
            match r.intent with
            | some s => if s ∈ INTENTS then some s else c.intent
            | none => c.intent,
          electronics_defect_claimed :=
            match r.intent with
            | some s =>
              if s ∈ INTENTS then
                if s = "DID_NOT_LIKE" then some false
                else if s = "ARRIVED_BROKEN" then some true
                else c.electronics_defect_claimed
              else c.electronics_defect_claimed
            | none => c.electronics_defect_claimed } := by
  unfold nluMergeIntent
  cases r.intent with
  | none => rfl
  | some s =>
    dsimp only
    by_cases hin : s ∈ INTENTS
    · rw [if_pos hin]
      by_cases hab : s = "ARRIVED_BROKEN"
      · subst hab
        rfl
      · rw [if_neg hab]
        by_cases hdn : s = "DID_NOT_LIKE"
        · subst hdn
          rfl
        · rw [if_neg hdn]
          simp [hin, hab, hdn]
    · simp [hin]

theorem nluMergeRequestedAction_eq (c : Case) (r : NLUResult) :
    nluMergeRequestedAction c r =
      { c with requested_action :=
          if truthyStr r.requested_action then r.requested_action
          else c.requested_action } := by
  unfold nluMergeRequestedAction
  split <;> rfl

theorem nluMergeDays_eq (c : Case) (r : NLUResult) :
    nluMergeDays c r =
      { c with days_since_purchase :=
          match r.days_since_purchase with
          | some d => some d
          | none => c.days_since_purchase } := by
  unfold nluMergeDays
  cases r.days_since_purchase <;> rfl

theorem nluMergeDate_eq (c : Case) (r : NLUResult) :
    nluMergeDate c r =
      { c with purchase_date_iso :=
          if truthyStr r.purchase_date_iso then r.purchase_date_iso
          else c.purchase_date_iso } := by
  unfold nluMergeDate
  split <;> rfl

theorem nluMergeFurniture_eq (c : Case) (r : NLUResult) :
    nluMergeFurniture c r =
      { c with furniture_assembled :=
          match r.furniture_assembled with
          | some b => some b
          | none => c.furniture_assembled } := by
  unfold nluMergeFurniture
  cases r.furniture_assembled <;> rfl

theorem nluMergeDefectClaimed_eq (c : Case) (r : NLUResult) :
    nluMergeDefectClaimed c r =
      { c with electronics_defect_claimed :=
          match r.electronics_defect_claimed with
          | some b => some b
          | none => c.electronics_defect_claimed } := by
  unfold nluMergeDefectClaimed
  cases r.electronics_defect_claimed <;> rfl

theorem nluMergeEvidence_eq (c : Case) (r : NLUResult) :
    nluMergeEvidence c r =
      { c with defect_evidence_present :=
          match r.defect_evidence_present with
          | some b => some b
          | none => c.defect_evidence_present } := by
  unfold nluMergeEvidence
  cases r.defect_evidence_present <;> rfl

theorem nluMergeSentiment_eq (c : Case) (r : NLUResult) :
    nluMergeSentiment c r =
      { c with user_sentiment :=
          if truthyStr r.user_sentiment then r.user_sentiment
          else c.user_sentiment } := by
  unfold nluMergeSentiment
  split <;> rfl

theorem nluMergeEmergency_eq (c : Case) (r : NLUResult) :
    nluMergeEmergency c r =
      { c with emergency_trigger :=
          match r.emergency_trigger with
          | some b => some b
          | none => c.emergency_trigger } := by
  unfold nluMergeEmergency
  cases r.emergency_trigger <;> rfl

theorem nluMergeCategory_pres_discount_percent (c : Case) (r : NLUResult) :
    (nluMergeCategory c r).discount_percent = c.discount_percent := by
  rw [nluMergeCategory_eq]

theorem nluMergeCategory_pres_asked_slots (c : Case) (r : NLUResult) :
    (nluMergeCategory c r).asked_slots = c.asked_slots := by
  rw [nluMergeCategory_eq]

theorem nluMergeCategory_pres_ticket_number (c : Case) (r : NLUResult) :
    (nluMergeCategory c r).ticket_number = c.ticket_number := by
  rw [nluMergeCategory_eq]

theorem nluMergeIntent_pres_discount_percent (c : Case) (r : NLUResult) :
    (nluMergeIntent c r).discount_percent = c.discount_percent := by
  rw [nluMergeIntent_eq]

theorem nluMergeIntent_pres_asked_slots (c : Case) (r : NLUResult) :
    (nluMergeIntent c r).asked_slots = c.asked_slots := by
  rw [nluMergeIntent_eq]

theorem nluMergeIntent_pres_ticket_number (c : Case) (r : NLUResult) :
    (nluMergeIntent c r).ticket_number = c.ticket_number := by
  rw [nluMergeIntent_eq]

theorem nluMergeRequestedAction_pres_discount_percent (c : Case) (r : NLUResult) :
    (nluMergeRequestedAction c r).discount_percent = c.discount_percent := by
  rw [nluMergeRequestedAction_eq]

theorem nluMergeRequestedAction_pres_asked_slots (c : Case) (r : NLUResult) :
    (nluMergeRequestedAction c r).asked_slots = c.asked_slots := by
  rw [nluMergeRequestedAction_eq]

theorem nluMergeRequestedAction_pres_ticket_number (c : Case) (r : NLUResult) :
    (nluMergeRequestedAction c r).ticket_number = c.ticket_number := by
  rw [nluMergeRequestedAction_eq]

theorem nluMergeDays_pres_discount_percent (c : Case) (r : NLUResult) :
    (nluMergeDays c r).discount_percent = c.discount_percent := by
  rw [nluMergeDays_eq]

theorem nluMergeDays_pres_asked_slots (c : Case) (r : NLUResult) :
    (nluMergeDays c r).asked_slots = c.asked_slots := by
  rw [nluMergeDays_eq]

theorem nluMergeDays_pres_ticket_number (c : Case) (r : NLUResult) :
    (nluMergeDays c r).ticket_number = c.ticket_number := by
  rw [nluMergeDays_eq]

theorem nluMergeDate_pres_discount_percent (c : Case) (r : NLUResult) :
    (nluMergeDate c r).discount_percent = c.discount_percent := by
  rw [nluMergeDate_eq]

theorem nluMergeDate_pres_asked_slots (c : Case) (r : NLUResult) :
    (nluMergeDate c r).asked_slots = c.asked_slots := by
  rw [nluMergeDate_eq]

theorem nluMergeDate_pres_ticket_number (c : Case) (r : NLUResult) :
    (nluMergeDate c r).ticket_number = c.ticket_number := by
  rw [nluMergeDate_eq]

theorem nluMergeFurniture_pres_discount_percent (c : Case) (r : NLUResult) :
    (nluMergeFurniture c r).discount_percent = c.discount_percent := by
  rw [nluMergeFurniture_eq]

theorem nluMergeFurniture_pres_asked_slots (c : Case) (r : NLUResult) :
    (nluMergeFurniture c r).asked_slots = c.asked_slots := by
  rw [nluMergeFurniture_eq]

theorem nluMergeFurniture_pres_ticket_number (c : Case) (r : NLUResult) :
    (nluMergeFurniture c r).ticket_number = c.ticket_number := by
  rw [nluMergeFurniture_eq]

theorem nluMergeDefectClaimed_pres_discount_percent (c : Case) (r : NLUResult) :
    (nluMergeDefectClaimed c r).discount_percent = c.discount_percent := by
  rw [nluMergeDefectClaimed_eq]

theorem nluMergeDefectClaimed_pres_asked_slots (c : Case) (r : NLUResult) :
    (nluMergeDefectClaimed c r).asked_slots = c.asked_slots := by
  rw [nluMergeDefectClaimed_eq]

theorem nluMergeDefectClaimed_pres_ticket_number (c : Case) (r : NLUResult) :
    (nluMergeDefectClaimed c r).ticket_number = c.ticket_number := by
  rw [nluMergeDefectClaimed_eq]

theorem nluMergeEvidence_pres_discount_percent (c : Case) (r : NLUResult) :
    (nluMergeEvidence c r).discount_percent = c.discount_percent := by
  rw [nluMergeEvidence_eq]

theorem nluMergeEvidence_pres_asked_slots (c : Case) (r : NLUResult) :
    (nluMergeEvidence c r).asked_slots = c.asked_slots := by
  rw [nluMergeEvidence_eq]

theorem nluMergeEvidence_pres_ticket_number (c : Case) (r : NLUResult) :
    (nluMergeEvidence c r).ticket_number = c.ticket_number := by
  rw [nluMergeEvidence_eq]

theorem nluMergeSentiment_pres_discount_percent (c : Case) (r : NLUResult) :
    (nluMergeSentiment c r).discount_percent = c.discount_percent := by
  rw [nluMergeSentiment_eq]

theorem nluMergeSentiment_pres_asked_slots (c : Case) (r : NLUResult) :
    (nluMergeSentiment c r).asked_slots = c.asked_slots := by
  rw [nluMergeSentiment_eq]

theorem nluMergeSentiment_pres_ticket_number (c : Case) (r : NLUResult) :
    (nluMergeSentiment c r).ticket_number = c.ticket_number := by
  rw [nluMergeSentiment_eq]

theorem nluMergeEmergency_pres_discount_percent (c : Case) (r : NLUResult) :
    (nluMergeEmergency c r).discount_percent = c.discount_percent := by
  rw [nluMergeEmergency_eq]

theorem nluMergeEmergency_pres_asked_slots (c : Case) (r : NLUResult) :
    (nluMergeEmergency c r).asked_slots = c.asked_slots := by
  rw [nluMergeEmergency_eq]

theorem nluMergeEmergency_pres_ticket_number (c : Case) (r : NLUResult) :
    (nluMergeEmergency c r).ticket_number = c.ticket_number := by
  rw [nluMergeEmergency_eq]

theorem nluMergeIntent_pres_category (c : Case) (r : NLUResult) :
    (nluMergeIntent c r).category = c.category := by
  rw [nluMergeIntent_eq]

theorem nluMergeRequestedAction_pres_category (c : Case) (r : NLUResult) :
    (nluMergeRequestedAction c r).category = c.category := by
  rw [nluMergeRequestedAction_eq]

theorem nluMergeDays_pres_category (c : Case) (r : NLUResult) :
    (nluMergeDays c r).category = c.category := by
  rw [nluMergeDays_eq]

theorem nluMergeDate_pres_category (c : Case) (r : NLUResult) :
    (nluMergeDate c r).category = c.category := by
  rw [nluMergeDate_eq]

theorem nluMergeFurniture_pres_category (c : Case) (r : NLUResult) :
    (nluMergeFurniture c r).category = c.category := by
  rw [nluMergeFurniture_eq]

theorem nluMergeDefectClaimed_pres_category (c : Case) (r : NLUResult) :
    (nluMergeDefectClaimed c r).category = c.category := by
  rw [nluMergeDefectClaimed_eq]

theorem nluMergeEvidence_pres_category (c : Case) (r : NLUResult) :
    (nluMergeEvidence c r).category = c.category := by
  rw [nluMergeEvidence_eq]

theorem nluMergeSentiment_pres_category (c : Case) (r : NLUResult) :
    (nluMergeSentiment c r).category = c.category := by
  rw [nluMergeSentiment_eq]

theorem nluMergeEmergency_pres_category (c : Case) (r : NLUResult) :
    (nluMergeEmergency c r).category = c.category := by
  rw [nluMergeEmergency_eq]

theorem nluMergeRequestedAction_pres_intent (c : Case) (r : NLUResult) :
    (nluMergeRequestedAction c r).intent = c.intent := by
  rw [nluMergeRequestedAction_eq]

theorem nluMergeDays_pres_intent (c : Case) (r : NLUResult) :
    (nluMergeDays c r).intent = c.intent := by
  rw [nluMergeDays_eq]

theorem nluMergeDate_pres_intent (c : Case) (r : NLUResult) :
    (nluMergeDate c r).intent = c.intent := by
  rw [nluMergeDate_eq]

theorem nluMergeFurniture_pres_intent (c : Case) (r : NLUResult) :
    (nluMergeFurniture c r).intent = c.intent := by
  rw [nluMergeFurniture_eq]

theorem nluMergeDefectClaimed_pres_intent (c : Case) (r : NLUResult) :
    (nluMergeDefectClaimed c r).intent = c.intent := by
  rw [nluMergeDefectClaimed_eq]

theorem nluMergeEvidence_pres_intent (c : Case) (r : NLUResult) :
    (nluMergeEvidence c r).intent = c.intent := by
  rw [nluMergeEvidence_eq]

theorem nluMergeSentiment_pres_intent (c : Case) (r : NLUResult) :
    (nluMergeSentiment c r).intent = c.intent := by
  rw [nluMergeSentiment_eq]

theorem nluMergeEmergency_pres_intent (c : Case) (r : NLUResult) :
    (nluMergeEmergency c r).intent = c.intent := by
  rw [nluMergeEmergency_eq]

theorem nluMergeDate_pres_days_since_purchase (c : Case) (r : NLUResult) :
    (nluMergeDate c r).days_since_purchase = c.days_since_purchase := by
  rw [nluMergeDate_eq]

theorem nluMergeFurniture_pres_days_since_purchase (c : Case) (r : NLUResult) :
    (nluMergeFurniture c r).days_since_purchase = c.days_since_purchase := by
  rw [nluMergeFurniture_eq]

theorem nluMergeDefectClaimed_pres_days_since_purchase (c : Case) (r : NLUResult) :
    (nluMergeDefectClaimed c r).days_since_purchase = c.days_since_purchase := by
  rw [nluMergeDefectClaimed_eq]

theorem nluMergeEvidence_pres_days_since_purchase (c : Case) (r : NLUResult) :
    (nluMergeEvidence c r).days_since_purchase = c.days_since_purchase := by
  rw [nluMergeEvidence_eq]

theorem nluMergeSentiment_pres_days_since_purchase (c : Case) (r : NLUResult) :
    (nluMergeSentiment c r).days_since_purchase = c.days_since_purchase := by
  rw [nluMergeSentiment_eq]

theorem nluMergeEmergency_pres_days_since_purchase (c : Case) (r : NLUResult) :
    (nluMergeEmergency c r).days_since_purchase = c.days_since_purchase := by
  rw [nluMergeEmergency_eq]

theorem updateNlu_frame (c : Case) (r : NLUResult) :
    (updateNlu c r).discount_percent = c.discount_percent ∧
    (updateNlu c r).asked_slots = c.asked_slots ∧
    (updateNlu c r).ticket_number = c.ticket_number := by
  unfold updateNlu
  refine ⟨?_, ?_, ?_⟩
  · rw [nluMergeEmergency_pres_discount_percent, nluMergeSentiment_pres_discount_percent, nluMergeEvidence_pres_discount_percent, nluMergeDefectClaimed_pres_discount_percent, nluMergeFurniture_pres_discount_percent, nluMergeDate_pres_discount_percent, nluMergeDays_pres_discount_percent, nluMergeRequestedAction_pres_discount_percent, nluMergeIntent_pres_discount_percent, nluMergeCategory_pres_discount_percent]
  · rw [nluMergeEmergency_pres_asked_slots, nluMergeSentiment_pres_asked_slots, nluMergeEvidence_pres_asked_slots, nluMergeDefectClaimed_pres_asked_slots, nluMergeFurniture_pres_asked_slots, nluMergeDate_pres_asked_slots, nluMergeDays_pres_asked_slots, nluMergeRequestedAction_pres_asked_slots, nluMergeIntent_pres_asked_slots, nluMergeCategory_pres_asked_slots]
  · rw [nluMergeEmergency_pres_ticket_number, nluMergeSentiment_pres_ticket_number, nluMergeEvidence_pres_ticket_number, nluMergeDefectClaimed_pres_ticket_number, nluMergeFurniture_pres_ticket_number, nluMergeDate_pres_ticket_number, nluMergeDays_pres_ticket_number, nluMergeRequestedAction_pres_ticket_number, nluMergeIntent_pres_ticket_number, nluMergeCategory_pres_ticket_number]

theorem updateNlu_sets_category (c : Case) (r : NLUResult) (s : String)
    (hs : s ∈ CATEGORIES) (h : r.category = some s) :
    (updateNlu c r).category = some s := by
  unfold updateNlu
  rw [nluMergeEmergency_pres_category, nluMergeSentiment_pres_category, nluMergeEvidence_pres_category, nluMergeDefectClaimed_pres_category, nluMergeFurniture_pres_category, nluMergeDate_pres_category, nluMergeDays_pres_category, nluMergeRequestedAction_pres_category, nluMergeIntent_pres_category]
  rw [nluMergeCategory_eq, h]
  simp [hs]

theorem updateNlu_sets_intent (c : Case) (r : NLUResult) (s : String)
    (hs : s ∈ INTENTS) (h : r.intent = some s) :
    (updateNlu c r).intent = some s := by
  unfold updateNlu
  rw [nluMergeEmergency_pres_intent, nluMergeSentiment_pres_intent, nluMergeEvidence_pres_intent, nluMergeDefectClaimed_pres_intent, nluMergeFurniture_pres_intent, nluMergeDate_pres_intent, nluMergeDays_pres_intent, nluMergeRequestedAction_pres_intent]
  rw [nluMergeIntent_eq, h]
  simp [hs]

theorem updateNlu_sets_days (c : Case) (r : NLUResult) (d : Int)
    (h : r.days_since_purchase = some d) :
    (updateNlu c r).days_since_purchase = some d := by
  unfold updateNlu
  rw [nluMergeEmergency_pres_days_since_purchase, nluMergeSentiment_pres_days_since_purchase, nluMergeEvidence_pres_days_since_purchase, nluMergeDefectClaimed_pres_days_since_purchase, nluMergeFurniture_pres_days_since_purchase, nluMergeDate_pres_days_since_purchase]
  rw [nluMergeDays_eq, h]

theorem updateNlu_sets_emergency (c : Case) (r : NLUResult) (b : Bool)
    (h : r.emergency_trigger = some b) :
    (updateNlu c r).emergency_trigger = some b := by
  unfold updateNlu
  rw [nluMergeEmergency_eq, h]

/-! ## Frame lemmas for the pre-decision phases -/

theorem applyFollowup_frame (c : Case) (m : String) :
    (applyFollowup c m).discount_percent = c.discount_percent ∧
    (applyFollowup c m).asked_slots = c.asked_slots ∧
    (applyFollowup c m).ticket_number = c.ticket_number := by
  unfold applyFollowup
  dsimp only
  by_cases h0 : (!truthyStr c.last_question_slot) = true
  · rw [if_pos h0]
    exact ⟨rfl, rfl, rfl⟩
  · rw [if_neg h0]
    by_cases h1 : c.last_question_slot.getD "" = "days_since_purchase"
    · rw [if_pos h1]
      rcases hp1 : parseDays m with _ | v <;> exact ⟨rfl, rfl, rfl⟩
    · rw [if_neg h1]
      by_cases h2 : c.last_question_slot.getD "" = "furniture_assembled"
      · rw [if_pos h2]
        rcases hp2 : parseYesNo m with _ | v <;> exact ⟨rfl, rfl, rfl⟩
      · rw [if_neg h2]
        by_cases h3 : c.last_question_slot.getD "" = "electronics_defect_claimed"
        · rw [if_pos h3]
          rcases hp3 : parseDefectClaim m with _ | v <;> exact ⟨rfl, rfl, rfl⟩
        · rw [if_neg h3]
          by_cases h4 : c.last_question_slot.getD "" = "defect_evidence_present"
          · rw [if_pos h4]
            rcases hp4 : parseYesNo m with _ | v <;> exact ⟨rfl, rfl, rfl⟩
          · rw [if_neg h4]
            by_cases h5 : c.last_question_slot.getD "" = "customer_name"
            · rw [if_pos h5]
              by_cases hn : (pySplitWs m).length ≥ 2
              · rw [if_pos hn]
                exact ⟨rfl, rfl, rfl⟩
              · rw [if_neg hn]
                exact ⟨rfl, rfl, rfl⟩
            · rw [if_neg h5]
              by_cases h6 : c.last_question_slot.getD "" = "customer_phone"
              · rw [if_pos h6]
                rcases hp6 : parsePhone m with _ | v <;> exact ⟨rfl, rfl, rfl⟩
              · rw [if_neg h6]
                by_cases h7 : c.last_question_slot.getD "" = "pickup_address_json"
                · rw [if_pos h7]
                  rcases hp7 : parseAddress m with _ | v <;> exact ⟨rfl, rfl, rfl⟩
                · rw [if_neg h7]
                  by_cases h8 : c.last_question_slot.getD "" = "intent"
                  · rw [if_pos h8]
                    rcases hp8 : parseIntent m with _ | v <;> exact ⟨rfl, rfl, rfl⟩
                  · rw [if_neg h8]
                    by_cases h9 : c.last_question_slot.getD "" = "category"
                    · rw [if_pos h9]
                      rcases hp9 : parseCategory m with _ | v <;> exact ⟨rfl, rfl, rfl⟩
                    · rw [if_neg h9]
                      exact ⟨rfl, rfl, rfl⟩

theorem updateClassification_frame (c : Case) (r : ImageClassification) :
    (updateClassification c r).discount_percent = c.discount_percent ∧
    (updateClassification c r).asked_slots = c.asked_slots ∧
    (updateClassification c r).ticket_number = c.ticket_number := by
  unfold updateClassification
  refine ⟨?_, ?_, ?_⟩ <;> (repeat' split) <;> rfl

theorem preNlu_frame (c : Case) (m : String) (i : Bool) (e : Env) :
    (preNlu c m i e).discount_percent = c.discount_percent ∧
    (preNlu c m i e).asked_slots = c.asked_slots ∧
    (preNlu c m i e).ticket_number = c.ticket_number := by
  unfold preNlu
  dsimp only
  refine ⟨?_, ?_, ?_⟩
  · split
    · rw [(updateClassification_frame _ _).1, (applyFollowup_frame _ _).1]
      split <;> rfl
    · rw [(applyFollowup_frame _ _).1]
      split <;> rfl
  · split
    · rw [(updateClassification_frame _ _).2.1, (applyFollowup_frame _ _).2.1]
      split <;> rfl
    · rw [(applyFollowup_frame _ _).2.1]
      split <;> rfl
  · split
    · rw [(updateClassification_frame _ _).2.2, (applyFollowup_frame _ _).2.2]
      split <;> rfl
    · rw [(applyFollowup_frame _ _).2.2]
      split <;> rfl

theorem nluPhase_frame (c : Case) (m : String) (i : Bool) (e : Env) :
    (nluPhase c m i e).discount_percent = c.discount_percent ∧
    (nluPhase c m i e).asked_slots = c.asked_slots ∧
    (nluPhase c m i e).ticket_number = c.ticket_number := by
  unfold nluPhase
  dsimp only
  split
  · exact ⟨by rw [(updateNlu_frame _ _).1, (preNlu_frame c m i e).1],
      by rw [(updateNlu_frame _ _).2.1, (preNlu_frame c m i e).2.1],
      by rw [(updateNlu_frame _ _).2.2, (preNlu_frame c m i e).2.2]⟩
  · exact ⟨(preNlu_frame c m i e).1, (preNlu_frame c m i e).2.1,
      (preNlu_frame c m i e).2.2⟩

/-! ## Helper lemmas for the reply phase -/

theorem markAsked_eq (c : Case) (slot : String) :
    markAsked c slot =
      { c with asked_slots := (StoredAsked.jsonList (if slot ∈ askedSlotsFn c then askedSlotsFn c else askedSlotsFn c ++ [slot])) } := rfl

theorem askedSlotsFn_markAsked (c : Case) (slot : String) :
    askedSlotsFn (markAsked c slot) =
      if slot ∈ askedSlotsFn c then askedSlotsFn c
      else askedSlotsFn c ++ [slot] := rfl

theorem markAsked_sub (c : Case) (slot : String) :
    List.Sublist (askedSlotsFn c) (askedSlotsFn (markAsked c slot)) := by
  rw [askedSlotsFn_markAsked]
  split
  · exact List.Sublist.refl _
  · exact List.sublist_append_left _ _

theorem markAsked_nodup (c : Case) (slot : String)
    (h : (askedSlotsFn c).Nodup) : (askedSlotsFn (markAsked c slot)).Nodup := by
  rw [askedSlotsFn_markAsked]
  split
  · exact h
  case isFalse hmem =>
    refine List.Nodup.append h (List.nodup_singleton _) ?_
    intro a ha hb
    simp only [List.mem_singleton] at hb
    subst hb
    exact hmem ha

theorem askNext_frame (c : Case) (slot : String) :
    (askNext c slot).1.discount_percent = c.discount_percent ∧
    (askNext c slot).1.ticket_number = c.ticket_number ∧
    (askNext c slot).1.emergency_trigger = c.emergency_trigger :=
  ⟨rfl, rfl, rfl⟩

theorem askedSlotsFn_askNext (c : Case) (slot : String) :
    askedSlotsFn (askNext c slot).1 = askedSlotsFn (markAsked c slot) := rfl

theorem retention_state (c : Case) (reason : String) :
    (retention c reason).1 =
      { c with decision := some "retention", status := some "retention",
               reason := some reason,
               retention_step := some (if truthyBool c.emergency_trigger then 4
                 else min (pyOrZero c.retention_step + 1) 4),
               discount_percent := some (retentionDiscount
                 (if truthyBool c.emergency_trigger then 4
                  else min (pyOrZero c.retention_step + 1) 4)) } := rfl

theorem approve_state (c : Case) (reason : String) :
    (approve c reason).1 =
      { c with decision := some "approved", status := some "approved",
               reason := some reason } := rfl

theorem retentionDiscount_le (k : Int) : retentionDiscount k ≤ 20 := by
  unfold retentionDiscount
  split_ifs <;> norm_num

theorem decisionTree_frame (c : Case) (e : Env) :
    (decisionTree c e).1.asked_slots = c.asked_slots ∧
    (decisionTree c e).1.ticket_number = c.ticket_number ∧
    (decisionTree c e).1.emergency_trigger = c.emergency_trigger ∧
    (decisionTree c e).1.customer_name = c.customer_name ∧
    (decisionTree c e).1.customer_phone = c.customer_phone ∧
    (decisionTree c e).1.pickup_address_json = c.pickup_address_json := by
  unfold decisionTree
  refine ⟨?_, ?_, ?_, ?_, ?_, ?_⟩ <;> (repeat' split) <;> rfl

theorem decisionTree_discount (c : Case) (e : Env) :
    (decisionTree c e).1.discount_percent = c.discount_percent ∨
    ∃ k, (decisionTree c e).1.discount_percent = some (retentionDiscount k) := by
  unfold decisionTree
  repeat' split
  all_goals
    first
      | exact Or.inl rfl
      | exact Or.inl (by rw [approve_state])
      | exact Or.inr ⟨_, by rw [retention_state]⟩

theorem decisionTree_env (c : Case) (e1 e2 : Env) (h : e1.nowDays = e2.nowDays) :
    decisionTree c e1 = decisionTree c e2 := by
  unfold decisionTree
  rw [h]

theorem dataCollection_frame (c : Case) (e : Env) :
    (dataCollectionReply c e).1.discount_percent = c.discount_percent ∧
    (dataCollectionReply c e).1.emergency_trigger = c.emergency_trigger ∧
    (dataCollectionReply c e).1.turn_count = c.turn_count := by
  unfold dataCollectionReply
  refine ⟨?_, ?_, ?_⟩ <;> (repeat' split) <;> rfl

theorem dataCollection_asked_sub (c : Case) (e : Env) :
    List.Sublist (askedSlotsFn c) (askedSlotsFn (dataCollectionReply c e).1) := by
  unfold dataCollectionReply
  repeat' split
  all_goals
    first
      | exact markAsked_sub c _
      | exact List.Sublist.refl _

theorem dataCollection_nodup (c : Case) (e : Env)
    (h : (askedSlotsFn c).Nodup) :
    (askedSlotsFn (dataCollectionReply c e).1).Nodup := by
  unfold dataCollectionReply
  repeat' split
  all_goals
    first
      | exact markAsked_nodup c _ h
      | exact h

theorem dataCollection_rng (c : Case) (e1 e2 : Env)
    (ht : truthyStr c.ticket_number = true) :
    dataCollectionReply c e1 = dataCollectionReply c e2 := by
  unfold dataCollectionReply
  by_cases h1 : (!truthyStr c.customer_name) = true
  · rw [if_pos h1, if_pos h1]
  · rw [if_neg h1, if_neg h1]
    by_cases h2 : c.pickup_address_json.isNone = true
    · rw [if_pos h2, if_pos h2]
    · rw [if_neg h2, if_neg h2]
      by_cases h3 : (!truthyStr c.customer_phone) = true
      · rw [if_pos h3, if_pos h3]
      · rw [if_neg h3, if_neg h3]
        rw [if_neg (by simp [ht]), if_neg (by simp [ht])]

theorem buildDecision_frame (c : Case) (d : Decision) (e : Env) :
    (buildDecisionReply c d e).1.discount_percent = c.discount_percent ∧
    (buildDecisionReply c d e).1.emergency_trigger = c.emergency_trigger := by
  unfold buildDecisionReply
  refine ⟨?_, ?_⟩ <;> (repeat' split) <;>
    first
      | rfl
      | exact (dataCollection_frame c e).1
      | exact (dataCollection_frame c e).2.1

theorem buildDecision_asked_sub (c : Case) (d : Decision) (e : Env) :
    List.Sublist (askedSlotsFn c) (askedSlotsFn (buildDecisionReply c d e).1) := by
  unfold buildDecisionReply
  repeat' split
  all_goals
    first
      | exact dataCollection_asked_sub c e
      | exact List.Sublist.refl _

theorem buildDecision_nodup (c : Case) (d : Decision) (e : Env)
    (h : (askedSlotsFn c).Nodup) :
    (askedSlotsFn (buildDecisionReply c d e).1).Nodup := by
  unfold buildDecisionReply
  repeat' split
  all_goals
    first
      | exact dataCollection_nodup c e h
      | exact h

theorem buildDecision_rng (c : Case) (d : Decision) (e1 e2 : Env)
    (ht : truthyStr c.ticket_number = true) :
    buildDecisionReply c d e1 = buildDecisionReply c d e2 := by
  unfold buildDecisionReply
  repeat' split
  all_goals
    first
      | rfl
      | exact dataCollection_rng c e1 e2 ht

theorem respond_fallback (c : Case) (e : Env)
    (h8 : pyOrZero c.turn_count ≥ 8) (hm : missingSlots c ≠ []) :
    respond c e =
      { reply := fallbackReply c (missingSlots c), status := c.status,
        nextq := (missingSlots c).head?, state := c } := by
  unfold respond
  dsimp only
  rw [if_pos ⟨h8, hm⟩]

theorem respond_discount (c : Case) (e : Env) :
    (respond c e).state.discount_percent = c.discount_percent ∨
    ∃ k, (respond c e).state.discount_percent = some (retentionDiscount k) := by
  unfold respond
  dsimp only
  split
  · exact Or.inl rfl
  · split
    · exact Or.inl (askNext_frame c _).1
    · split
      · exact Or.inl rfl
      · rcases decisionTree_discount c e with h | ⟨k, h⟩
        · exact Or.inl (by rw [(buildDecision_frame _ _ _).1, h])
        · exact Or.inr ⟨k, by rw [(buildDecision_frame _ _ _).1, h]⟩

theorem respond_emergency (c : Case) (e : Env) :
    (respond c e).state.emergency_trigger = c.emergency_trigger := by
  unfold respond
  dsimp only
  split
  · rfl
  · split
    · exact (askNext_frame c _).2.2
    · split
      · rfl
      · rw [(buildDecision_frame _ _ _).2, (decisionTree_frame c e).2.2.1]

theorem respond_asked_sub (c : Case) (e : Env) :
    List.Sublist (askedSlotsFn c) (askedSlotsFn (respond c e).state) := by
  unfold respond
  dsimp only
  split
  · exact List.Sublist.refl _
  · split
    · rw [askedSlotsFn_askNext]
      exact markAsked_sub c _
    · split
      · exact List.Sublist.refl _
      · have h1 : askedSlotsFn (decisionTree c e).1 = askedSlotsFn c := by
          unfold askedSlotsFn
          rw [(decisionTree_frame c e).1]
        have h2 := buildDecision_asked_sub (decisionTree c e).1 (decisionTree c e).2 e
        rw [h1] at h2
        exact h2

theorem respond_nodup (c : Case) (e : Env) (h : (askedSlotsFn c).Nodup) :
    (askedSlotsFn (respond c e).state).Nodup := by
  unfold respond
  dsimp only
  split
  · exact h
  · split
    · rw [askedSlotsFn_askNext]
      exact markAsked_nodup c _ h
    · split
      · exact h
      · refine buildDecision_nodup _ _ _ ?_
        have h1 : askedSlotsFn (decisionTree c e).1 = askedSlotsFn c := by
          unfold askedSlotsFn
          rw [(decisionTree_frame c e).1]
        rw [h1]
        exact h

theorem respond_nextq_iff (c : Case) (e : Env) :
    (respond c e).nextq.isSome = true ↔ missingSlots c ≠ [] := by
  unfold respond
  dsimp only
  split
  case isTrue hcond =>
    cases hM : missingSlots c with
    | nil => exact absurd hM hcond.2
    | cons a l => simp [hM]
  case isFalse hcond =>
    split
    case isTrue hun =>
      cases hU : (missingSlots c).filter
          (fun s => !(decide (s ∈ askedSlotsFn c))) with
      | nil => exact absurd hU hun
      | cons a l =>
        simp only [hU, List.head?_cons, Option.isSome_some, true_iff]
        intro hnil
        rw [hnil] at hU
        simp at hU
    case isFalse hun =>
      split
      case isTrue hm =>
        cases hM : missingSlots c with
        | nil => exact absurd hM hm
        | cons a l => simp [hM, hm]
      case isFalse hm =>
        simp only [Option.isSome_none, Bool.false_eq_true, false_iff, ne_eq,
          not_not]
        exact not_not.mp hm

theorem respond_nextq_mem (c : Case) (e : Env) (s : String)
    (h : (respond c e).nextq = some s) : s ∈ missingSlots c := by
  unfold respond at h
  dsimp only at h
  split at h
  · exact List.mem_of_mem_head? h
  · split at h
    · exact List.mem_of_mem_filter (List.mem_of_mem_head? h)
    · split at h
      · exact List.mem_of_mem_head? h
      · exact absurd h (by simp)

/-! ## Claim C2 -/

theorem handleTurn_discountOK (c : Case) (m : String) (i : Bool) (e : Env)
    (h : discountOK c) : discountOK (handleTurn c m i e).state := by
  unfold handleTurn
  intro q hq
  rcases respond_discount (nluPhase c m i e) e with hd | ⟨k, hd⟩
  · rw [hd, (nluPhase_frame c m i e).1] at hq
    exact h q hq
  · rw [hd] at hq
    injection hq with hq
    rw [← hq]
    exact retentionDiscount_le k

theorem runTurns_discountOK (turns : List (String × Bool × Env)) (c : Case)
    (h : discountOK c) : discountOK (runTurns c turns) := by
  induction turns generalizing c with
  | nil => exact h
  | cons t ts ih => exact ih _ (handleTurn_discountOK c t.1 t.2.1 t.2.2 h)

/-- Claim C2: on every retention entry the step advances to
`min(step + 1, 4)` when `emergency_trigger` is false and snaps to 4 when it
is true; the discount written for the turn is the ladder value of the new
step (0/6/11/20 for steps 1-4); and along every turn sequence from a state
within the 20% cap, `discount_percent` never exceeds 20, whatever the
user's messages. -/
theorem C2_retention_ladder :
    (∀ (c : Case) (r : String), c.emergency_trigger = some false →
      (retention c r).1.retention_step =
        some (min (pyOrZero c.retention_step + 1) 4)) ∧
    (∀ (c : Case) (r : String), c.emergency_trigger = some true →
      (retention c r).1.retention_step = some 4) ∧
    (∀ (c : Case) (r : String),
      (retention c r).1.discount_percent =
        some (retentionDiscount (pyOrZero (retention c r).1.retention_step))) ∧
    (retentionDiscount 1 = 0 ∧ retentionDiscount 2 = 6 ∧
      retentionDiscount 3 = 11 ∧ retentionDiscount 4 = 20) ∧
    (∀ (c0 : Case) (turns : List (String × Bool × Env)),
      discountOK c0 → discountOK (runTurns c0 turns)) := by
  refine ⟨?_, ?_, ?_, ?_, ?_⟩
  · intro c r h
    rw [retention_state]
    simp [truthyBool, h]
  · intro c r h
    rw [retention_state]
    simp [truthyBool, h]
  · intro c r
    rfl
  · refine ⟨by norm_num [retentionDiscount], by norm_num [retentionDiscount],
      by norm_num [retentionDiscount], by norm_num [retentionDiscount]⟩
  · exact fun c0 turns h => runTurns_discountOK turns c0 h

/-- Witness for C2: a step-1 session escalates to step 2; an emergency
snaps to step 4; a fresh session keeps the cap along a turn. -/
theorem C2_retention_ladder_witness :
    (retention { retention_step := some 1, emergency_trigger := some false }
      "x").1.retention_step = some 2 ∧
    (retention { emergency_trigger := some true } "x").1.retention_step = some 4 ∧
    discountOK (runTurns {} [("I want a refund", false, {})]) := by
  refine ⟨?_, ?_, ?_⟩
  · rw [C2_retention_ladder.1
      { retention_step := some 1, emergency_trigger := some false } "x" rfl]
    decide
  · exact C2_retention_ladder.2.1 { emergency_trigger := some true } "x" rfl
  · exact C2_retention_ladder.2.2.2.2 {} [("I want a refund", false, {})]
      (fun q hq => nomatch hq)

/-! ## Claim C5 -/

/-- Claim C5 (code bug): `_update_nlu` reads `result.intent` — the first of
seven attributes that the models.py `NLUUpdate` schema does not declare —
so whenever a tracked field is null (any fresh session; `shouldRunNlu` is
true and stays true through the pre-NLU phase of a plain first message)
the NLU step runs and `handle_turn` propagates `AttributeError`, while the
spec promises `handle_turn` never raises. -/
theorem C5_nlu_attribute_error :
    firstMissingAttributeRead = some "intent" ∧
    shouldRunNlu ({} : Case) = true ∧
    shouldRunNlu (preNlu {} "I need help" false {}) = true := by
  decide

/-! ## Claim C6 -/

/-- Counterexample to claim C6 as stated: a fully-slotted ELECTRONICS
session on its eighth turn reaches the approved data-collection sub-flow,
which asks for the customer's name and sets `last_question_slot` even
though the turn budget is exhausted. -/
theorem C6_counterexample : ¬ claimC6 := by
  intro h
  have h2 := (h caseBudget "hi" false {} (by decide)).1
  exact absurd h2 (by decide)

/-- Claim C6 amended: once the turn counter has reached 8, *when required
slots are still missing* the turn is the fallback summary and the session
state is left exactly as the slot-update phase produced it (no question is
marked asked and `last_question_slot` is not set); the approved
data-collection sub-flow, reached only when no required slot is missing,
is not subject to the budget and may still ask. -/
theorem C6_turn_budget (c : Case) (m : String) (i : Bool) (e : Env)
    (h8 : pyOrZero (nluPhase c m i e).turn_count ≥ 8)
    (hm : missingSlots (nluPhase c m i e) ≠ []) :
    handleTurn c m i e =
      { reply := fallbackReply (nluPhase c m i e)
          (missingSlots (nluPhase c m i e)),
        status := (nluPhase c m i e).status,
        nextq := (missingSlots (nluPhase c m i e)).head?,
        state := nluPhase c m i e } :=
  respond_fallback (nluPhase c m i e) e h8 hm

/-- Witness for the amended C6 at a fresh session on its eighth turn. -/
theorem C6_turn_budget_witness :
    handleTurn caseEighth "hello" false {} =
      { reply := fallbackReply (nluPhase caseEighth "hello" false {})
          (missingSlots (nluPhase caseEighth "hello" false {})),
        status := (nluPhase caseEighth "hello" false {}).status,
        nextq := (missingSlots (nluPhase caseEighth "hello" false {})).head?,
        state := nluPhase caseEighth "hello" false {} } :=
  C6_turn_budget caseEighth "hello" false {} (by decide) (by decide)

/-! ## Claim C7 -/

/-- Counterexample to claim C7 as stated: the data-collection sub-flow
emits the customer-name question even when `customer_name` is already in
`asked_slots` (it checks only whether the value is filled). -/
theorem C7_counterexample : ¬ claimC7 := by
  intro h
  have h3 := h.2.2 caseAskedName {} (by decide)
  exact h3 (by decide)

theorem handleTurn_asked_sub (c : Case) (m : String) (i : Bool) (e : Env) :
    List.Sublist (askedSlotsFn c) (askedSlotsFn (handleTurn c m i e).state) := by
  have hn : askedSlotsFn (nluPhase c m i e) = askedSlotsFn c := by
    unfold askedSlotsFn
    rw [(nluPhase_frame c m i e).2.1]
  have h2 := respond_asked_sub (nluPhase c m i e) e
  rw [hn] at h2
  exact h2

theorem handleTurn_asked_nodup (c : Case) (m : String) (i : Bool) (e : Env)
    (h : (askedSlotsFn c).Nodup) :
    (askedSlotsFn (handleTurn c m i e).state).Nodup := by
  have hn : askedSlotsFn (nluPhase c m i e) = askedSlotsFn c := by
    unfold askedSlotsFn
    rw [(nluPhase_frame c m i e).2.1]
  refine respond_nodup (nluPhase c m i e) e ?_
  rw [hn]
  exact h

theorem runTurns_asked_sub (turns : List (String × Bool × Env)) (c : Case) :
    List.Sublist (askedSlotsFn c) (askedSlotsFn (runTurns c turns)) := by
  induction turns generalizing c with
  | nil => exact List.Sublist.refl _
  | cons t ts ih =>
    exact List.Sublist.trans (handleTurn_asked_sub c t.1 t.2.1 t.2.2) (ih _)

theorem runTurns_asked_nodup (turns : List (String × Bool × Env)) (c : Case)
    (h : (askedSlotsFn c).Nodup) : (askedSlotsFn (runTurns c turns)).Nodup := by
  induction turns generalizing c with
  | nil => exact h
  | cons t ts ih => exact ih _ (handleTurn_asked_nodup c t.1 t.2.1 t.2.2 h)

/-- Claim C7 amended: `asked_slots` grows monotonically (as a sublist) and
stays duplicate-free across every turn and every turn sequence, and the
ask-next rule only ever asks a slot that is not yet in `asked_slots`; the
approved data-collection sub-flow, however, consults only whether the value
is missing and can re-ask a slot that is already in `asked_slots`, so a
slot can be asked twice in one session. -/
theorem C7_asked_slots (c : Case) (m : String) (i : Bool) (e : Env)
    (c0 : Case) (turns : List (String × Bool × Env)) (slot : String)
    (rest : List String) :
    List.Sublist (askedSlotsFn c) (askedSlotsFn (handleTurn c m i e).state) ∧
    ((askedSlotsFn c).Nodup → (askedSlotsFn (handleTurn c m i e).state).Nodup) ∧
    List.Sublist (askedSlotsFn c0) (askedSlotsFn (runTurns c0 turns)) ∧
    ((askedSlotsFn c0).Nodup → (askedSlotsFn (runTurns c0 turns)).Nodup) ∧
    ((missingSlots c).filter (fun s => !(decide (s ∈ askedSlotsFn c))) =
        slot :: rest →
      slot ∉ askedSlotsFn c) := by
  refine ⟨handleTurn_asked_sub c m i e,
    handleTurn_asked_nodup c m i e,
    runTurns_asked_sub turns c0,
    runTurns_asked_nodup turns c0, ?_⟩
  intro hf
  have hmem : slot ∈ (missingSlots c).filter
      (fun s => !(decide (s ∈ askedSlotsFn c))) := by
    rw [hf]
    exact List.mem_cons_self _ _
  have hp := List.of_mem_filter hmem
  simpa using hp

/-- Witness for the amended C7. -/
theorem C7_asked_slots_witness :
    (askedSlotsFn (handleTurn caseAskedName "hi" false {}).state).Nodup ∧
    "category" ∉ askedSlotsFn ({} : Case) :=
  ⟨(C7_asked_slots caseAskedName "hi" false {} {} [] "x" []).2.1 (by decide),
   (C7_asked_slots {} "hi" false {} {} [] "category" ["intent"]).2.2.2.2
     (by decide)⟩

/-! ## Claim C8 -/

/-- Counterexample to claim C8 as stated: on the fallback-summary branch
(eighth turn, slots missing) `handle_turn` returns `missing_slots[0]` as
the third component even though no question was asked. -/
theorem C8_counterexample : ¬ claimC8 := by
  intro h
  have h2 := (h caseEighth "hi" false {}).1 ⟨by decide, by decide⟩
  exact absurd h2 (by decide)

/-- Claim C8 amended: the third component of `handle_turn` is non-null iff
required slots are still missing at decision time — it names a missing
slot on the fallback, ask-next and stall branches alike (whether or not a
question was asked) and is null on the decision branch even when the
data-collection sub-flow asked one. -/
theorem C8_next_question_slot (c : Case) (m : String) (i : Bool) (e : Env) :
    ((handleTurn c m i e).nextq.isSome = true ↔
      missingSlots (nluPhase c m i e) ≠ []) ∧
    (∀ s, (handleTurn c m i e).nextq = some s →
      s ∈ missingSlots (nluPhase c m i e)) :=
  ⟨respond_nextq_iff (nluPhase c m i e) e,
   fun s h => respond_nextq_mem (nluPhase c m i e) e s h⟩

/-- Witness for the amended C8. -/
theorem C8_next_question_slot_witness :
    "category" ∈ missingSlots (nluPhase {} "hi" false {}) :=
  (C8_next_question_slot {} "hi" false {}).2 "category" (by decide)

/-! ## Claim C9 -/

/-- Counterexample to claim C9 as stated: two runs with equal session
state, message and oracle results but different random draws assign
different ticket numbers and return different replies. -/
theorem C9_counterexample : ¬ claimC9 := by
  intro h
  have h2 := h caseTicket "ok" false { rng := 0 } { rng := 1 } rfl rfl
  exact absurd h2 (by decide)

theorem respond_env_congr (c : Case) (e1 e2 : Env)
    (hd : e1.nowDays = e2.nowDays)
    (ht : truthyStr c.ticket_number = true) :
    respond c e1 = respond c e2 := by
  unfold respond
  dsimp only
  by_cases hA : pyOrZero c.turn_count ≥ 8 ∧ missingSlots c ≠ []
  · rw [if_pos hA, if_pos hA]
  · rw [if_neg hA, if_neg hA]
    by_cases hB : (missingSlots c).filter
        (fun s => !(decide (s ∈ askedSlotsFn c))) ≠ []
    · rw [if_pos hB, if_pos hB]
    · rw [if_neg hB, if_neg hB]
      by_cases hC : missingSlots c ≠ []
      · rw [if_pos hC, if_pos hC]
      · rw [if_neg hC, if_neg hC]
        rw [decisionTree_env c e1 e2 hd]
        have htd : truthyStr (decisionTree c e2).1.ticket_number = true := by
          rw [show (decisionTree c e2).1.ticket_number = c.ticket_number from
            (decisionTree_frame c e2).2.1]
          exact ht
        rw [buildDecision_rng _ _ e1 e2 htd]

/-- Claim C9 amended: `handle_turn` is deterministic given its inputs
*together with* the random draw and the current time; when the session
already carries a ticket number, the random draw is irrelevant too. -/
theorem C9_determinism (c : Case) (m : String) (i : Bool) (e1 e2 : Env)
    (hn : e1.nlu = e2.nlu) (hc : e1.classify = e2.classify)
    (hd : e1.nowDays = e2.nowDays) :
    (e1.rng = e2.rng → handleTurn c m i e1 = handleTurn c m i e2) ∧
    (truthyStr c.ticket_number = true →
      handleTurn c m i e1 = handleTurn c m i e2) := by
  constructor
  · intro hr
    have henv : e1 = e2 := by
      cases e1
      cases e2
      simp_all
    rw [henv]
  · intro ht
    have hphase : nluPhase c m i e1 = nluPhase c m i e2 := by
      unfold nluPhase preNlu
      rw [hn, hc]
    unfold handleTurn
    rw [hphase]
    have ht2 : truthyStr (nluPhase c m i e2).ticket_number = true := by
      rw [show (nluPhase c m i e2).ticket_number = c.ticket_number from
        (nluPhase_frame c m i e2).2.2]
      exact ht
    exact respond_env_congr (nluPhase c m i e2) e1 e2 hd ht2

/-- Witness for the amended C9: with a ticket already assigned, two runs
differing only in the random draw coincide. -/
theorem C9_determinism_witness :
    handleTurn { caseTicket with ticket_number := some "12345678" } "ok"
      false { rng := 0 } =
    handleTurn { caseTicket with ticket_number := some "12345678" } "ok"
      false { rng := 5 } :=
  (C9_determinism { caseTicket with ticket_number := some "12345678" } "ok"
    false { rng := 0 } { rng := 5 } rfl rfl rfl).2 (by decide)

/-! ## Claim C10 -/

/-- Claim C10: whenever a tracked field is still null after the pre-NLU
phase, the NLU merge runs, and the merge overwrites already-populated
slots with any non-null domain-valid extractor output — a confirmed
category, intent or days value is replaced, and an extractor result
carrying `emergency_trigger = false` clears a previously detected
emergency flag (which then survives the reply phase of the turn). -/
theorem C10_nlu_merge (c : Case) (m : String) (i : Bool) (e : Env)
    (r : NLUResult) (cat intentName : String) (d : Int) :
    (shouldRunNlu (preNlu c m i e) = true →
      nluPhase c m i e = updateNlu (preNlu c m i e) e.nlu) ∧
    (cat ∈ CATEGORIES → r.category = some cat →
      (updateNlu c r).category = some cat) ∧
    (intentName ∈ INTENTS → r.intent = some intentName →
      (updateNlu c r).intent = some intentName) ∧
    (r.days_since_purchase = some d →
      (updateNlu c r).days_since_purchase = some d) ∧
    (r.emergency_trigger = some false →
      (updateNlu c r).emergency_trigger = some false) ∧
    (shouldRunNlu (preNlu c m i e) = true →
      e.nlu.emergency_trigger = some false →
      (handleTurn c m i e).state.emergency_trigger = some false) := by
  refine ⟨?_, ?_, ?_, ?_, ?_, ?_⟩
  · intro h
    unfold nluPhase
    dsimp only
    rw [if_pos h]
  · exact fun hs h => updateNlu_sets_category c r cat hs h
  · exact fun hs h => updateNlu_sets_intent c r intentName hs h
  · exact fun h => updateNlu_sets_days c r d h
  · exact fun h => updateNlu_sets_emergency c r false h
  · intro h he
    unfold handleTurn
    rw [respond_emergency]
    have h1 : nluPhase c m i e = updateNlu (preNlu c m i e) e.nlu := by
      unfold nluPhase
      dsimp only
      rw [if_pos h]
    rw [h1]
    exact updateNlu_sets_emergency _ _ false he

/-- Witness for C10: an extractor result overwrites a populated category
and clears a set emergency flag. -/
theorem C10_nlu_merge_witness :
    (updateNlu { emergency_trigger := some true }
      { emergency_trigger := some false }).emergency_trigger = some false ∧
    (updateNlu { category := some "FOOD" }
      { category := some "ELECTRONICS" }).category = some "ELECTRONICS" :=
  ⟨(C10_nlu_merge { emergency_trigger := some true } "m" false {}
      { emergency_trigger := some false } "ELECTRONICS" "WANT_REFUND"
      3).2.2.2.2.1 rfl,
   (C10_nlu_merge { category := some "FOOD" } "m" false {}
      { category := some "ELECTRONICS" } "ELECTRONICS" "WANT_REFUND"
      3).2.1 (by decide) rfl⟩

end ShopAgent
